import Mathlib

/-!
# Verification of the shai-http session/streaming layer

Shallow embedding of the code under `src/shai-http` (streaming assembly,
OpenAI chat-completion formatter and handler, request session, disconnection
handler, agent-creation error mapping), with theorems settling the spec
claims about it.

Conventions of the embedding:
* Rust enums become inductives; variants that the embedded code never
  discriminates (matched only by `_` arms) are collapsed into a single
  representative constructor, with a comment at the definition.
* The async event subscription (`tokio::sync::broadcast` receiver wrapped in
  a `BroadcastStream`) is modelled as a finite list of received items; the
  end of the list models the receiver returning `None` (channel closed).
* Effects on the opaque `AgentController` (which lives in shai-core, outside
  the embedded sources) are modelled per the spec where the spec pins them
  down, and marked `Modelled from the spec:`.
-/

/-- Mirrors `shai_core::tools::ToolResult` as used by
`src/shai-http/src/apis/openai/completion/formatter.rs` and `handler.rs`:
the code matches `Success { .. }` (fields ignored), `Error { error, .. }`,
and `Denied`, so the success payload is dropped here. -/
inductive ToolResult where
  | success
  | error (error : String)
  | denied
deriving DecidableEq, Repr

/-- Mirrors the `ToolCall` carried by tool events; the embedded code only
reads `call.tool_name`. -/
structure ToolCall where
  tool_name : String
deriving DecidableEq, Repr

/-- The `thought : Result<ChatMessage, _>` field of `AgentEvent::BrainResult`.
Both the formatter (`formatter.rs` lines 65-76) and the handler
(`handler.rs` lines 50-56) only discriminate the single pattern
`Ok(ChatMessage::Assistant { content: Some(Text(text)), .. })`; every other
`Ok` payload and every `Err` fall through identically, so they are collapsed
into `other`. -/
inductive Thought where
  | assistantText (text : String)
  | other
deriving DecidableEq, Repr

/-- Mirrors `shai_core::agent::PublicAgentState` as used under src/: only the
`Paused` variant is ever discriminated (`streaming.rs` line 130,
`handler.rs` line 83); all remaining variants are collapsed into `running`. -/
inductive PublicAgentState where
  | running
  | paused
deriving DecidableEq, Repr

/-- Mirrors `shai_core::agent::AgentEvent` as consumed under src/. Variants
that every embedded match treats with a `_` arm are collapsed into `other`. -/
inductive AgentEvent where
  | brainResult (thought : Thought)
  | toolCallStarted (call : ToolCall)
  | toolCallCompleted (call : ToolCall) (result : ToolResult)
  | statusChanged (old_status new_status : PublicAgentState)
  | completed (message : String) (success : Bool)
  | error (error : String)
  | other
deriving DecidableEq, Repr

/-- Mirrors `openai_dive::v1::resources::shared::FinishReason`. The embedded
code only ever constructs `StopSequenceReached`; the remaining variants are
kept (representatively) so that "always the same constant" is not vacuous. -/
inductive FinishReason where
  | stopSequenceReached
  | stop
  | length
  | toolCalls
deriving DecidableEq, Repr

/-- Mirrors `openai_dive::v1::resources::chat::DeltaChatMessage::Assistant`
as constructed in `formatter.rs`: the code always sets `refusal`, `name` and
`tool_calls` to `None`, so those fields carry no payload type here. -/
structure DeltaChatMessage where
  content : Option String
  reasoning_content : Option String
  refusal : Option Unit
  name : Option Unit
  tool_calls : Option Unit
deriving DecidableEq, Repr

/-- Mirrors `ChatCompletionChunkChoice` as constructed by
`ChatCompletionFormatter::create_chunk` (`formatter.rs` lines 42-47). -/
structure ChatCompletionChunkChoice where
  index : Option Nat
  delta : DeltaChatMessage
  finish_reason : Option FinishReason
  logprobs : Option Unit
deriving DecidableEq, Repr

/-- Mirrors `ChatCompletionChunkResponse` as constructed by `create_chunk`
(`formatter.rs` lines 36-51). The `id` field (a freshly drawn UUID
`"chatcmpl-{Uuid::new_v4()}"`) is nondeterministic and inspected by no claim,
so it is left out of the model; `usage` and `system_fingerprint` are the
constant `None`. -/
structure ChatCompletionChunkResponse where
  object : String
  created : Nat
  model : String
  choices : List ChatCompletionChunkChoice
  usage : Option Unit
  system_fingerprint : Option Unit
deriving DecidableEq, Repr

/-- Mirrors the state of `ChatCompletionFormatter` (`formatter.rs` lines
16-20): `model`, `created` (the construction-time clock value, passed in as
data here), and the mutable `accumulated_text`. -/
structure ChatCompletionFormatter where
  model : String
  created : Nat
  accumulated_text : String
deriving DecidableEq, Repr

/-- Mirrors `ChatCompletionFormatter::new` (`formatter.rs` lines 23-34);
the wall-clock `created` timestamp is a parameter. -/
def ChatCompletionFormatter.new (model : String) (created : Nat) :
    ChatCompletionFormatter :=
  { model := model, created := created, accumulated_text := "" }

/-- Mirrors `ChatCompletionFormatter::create_chunk` (`formatter.rs` lines
36-51). -/
def ChatCompletionFormatter.create_chunk (f : ChatCompletionFormatter)
    (delta : DeltaChatMessage) (finish_reason : Option FinishReason) :
    ChatCompletionChunkResponse :=
  { object := "chat.completion.chunk"
    created := f.created
    model := f.model
    choices := [{ index := some 0
                  delta := delta
                  finish_reason := finish_reason
                  logprobs := none }]
    usage := none
    system_fingerprint := none }

/-- Mirrors `error.lines().next().unwrap_or(error)` (`formatter.rs` line
105): the first line of the string (Rust `str::lines` also strips one
trailing carriage return per line); for the empty string, `lines()` yields
nothing and `unwrap_or` returns the whole (empty) string. -/
def firstLine (s : String) : String :=
  if s.data.isEmpty then s
  else
    let l := s.data.takeWhile (fun c => c ≠ '\n')
    String.mk (if l.getLast? = some '\r' then l.dropLast else l)

/-- Mirrors `<ChatCompletionFormatter as EventFormatter>::format_event`
(`formatter.rs` lines 58-166). Rust mutates `self`; here the updated
formatter state is returned alongside the optional output chunk. -/
def ChatCompletionFormatter.format_event (f : ChatCompletionFormatter)
    (event : AgentEvent) :
    ChatCompletionFormatter × Option ChatCompletionChunkResponse :=
  match event with
  | .brainResult thought =>
    match thought with
    | .assistantText text => ({ f with accumulated_text := text }, none)
    | .other => (f, none)
  | .toolCallStarted call =>
    let thinking_text := "[toolcall: " ++ call.tool_name ++ "]"
    let delta : DeltaChatMessage :=
      { content := none
        reasoning_content := some thinking_text
        refusal := none
        name := none
        tool_calls := none }
    (f, some (f.create_chunk delta none))
  | .toolCallCompleted call result =>
    let thinking_text :=
      match result with
      | .success => "[tool succeeded: " ++ call.tool_name ++ "]"
      | .error error =>
        "[tool failed: " ++ call.tool_name ++ " - " ++ firstLine error ++ "]"
      | .denied => "[tool denied: " ++ call.tool_name ++ "]"
    let delta : DeltaChatMessage :=
      { content := none
        reasoning_content := some thinking_text
        refusal := none
        name := none
        tool_calls := none }
    (f, some (f.create_chunk delta none))
  | .completed message _success =>
    let f2 := if message.isEmpty then f else { f with accumulated_text := message }
    let content_delta : DeltaChatMessage :=
      { content := some f2.accumulated_text
        reasoning_content := none
        refusal := none
        name := none
        tool_calls := none }
    let finish_reason := some FinishReason.stopSequenceReached
    (f2, some (f2.create_chunk content_delta finish_reason))
  | .error error =>
    let delta : DeltaChatMessage :=
      { content := some ("Error: " ++ error)
        reasoning_content := none
        refusal := none
        name := none
        tool_calls := none }
    (f, some (f.create_chunk delta (some FinishReason.stopSequenceReached)))
  | .statusChanged _ _ => (f, none)
  | .other => (f, none)

/-- Mirrors `is_terminal_event` (`streaming.rs` lines 125-134): `Completed`
or a `StatusChanged` whose new status is `Paused`. -/
def is_terminal_event (event : AgentEvent) : Bool :=
  match event with
  | .completed _ _ => true
  | .statusChanged _ .paused => true
  | _ => false

/-- One item yielded by `rx.next()` on the
`BroadcastStream<AgentEvent>` inside `sse_stream_internal`
(`streaming.rs` line 56): `ok` is `Some(Ok(event))`, `err` is
`Some(Err(BroadcastStreamRecvError::Lagged(n)))`. The end of the item list
models `None` (the broadcast channel closed). -/
inductive RxItem where
  | ok (event : AgentEvent)
  | err (lagged : Nat)
deriving DecidableEq, Repr

/-- Shallow embedding of the `futures::stream::unfold` loop of
`sse_stream_internal` (`streaming.rs` lines 44-91), generic in the formatter
exactly as the Rust function is generic in `F: EventFormatter`:
* `step` is the formatter's `format_event` (state-passing for `&mut self`);
* `ser` models `serde_json::to_string` on the formatter output (`none` is
  a serialization `Err`, which the code logs and `continue`s past);
* the `Bool` argument is the `done` flag of the unfold state;
* the result is the list of serialized SSE data payloads produced before the
  outbound stream ends.
Per the source: a terminal event (`is_terminal_event`) sets `new_done`; a
successfully serialized output is emitted with `new_done` carried into the
next unfold state; a serialization failure continues the inner loop with the
OLD `done`; a suppressed (`None`) output ends the stream if `new_done` and
otherwise continues; a `Lagged` receive error or channel close ends the
stream. -/
def sseTrace {σ ω : Type} (step : σ → AgentEvent → σ × Option ω)
    (ser : ω → Option String) :
    List RxItem → σ → Bool → List String
  | _, _, true => []
  | [], _, false => []
  | .err _ :: _, _, false => []
  | .ok e :: rest, s, false =>
    let new_done := is_terminal_event e
    match (step s e).2 with
    | some o =>
      match ser o with
      | some j => j :: sseTrace step ser rest (step s e).1 new_done
      | none => sseTrace step ser rest (step s e).1 false
    | none =>
      if new_done then [] else sseTrace step ser rest (step s e).1 false

/-- The chat-completion formatter run over a list of delivered events in
order (each `format_event` call threads the mutated formatter state), keeping
the `Some` outputs: the formatter-level view of the streamed chunks, as in
the spec scenarios. -/
def ChatCompletionFormatter.formatTrace (f : ChatCompletionFormatter) :
    List AgentEvent → List ChatCompletionChunkResponse
  | [] => []
  | e :: rest =>
    match f.format_event e with
    | (f2, some o) => o :: f2.formatTrace rest
    | (f2, none) => f2.formatTrace rest

/-- The single choice's message content and finish reason of the response
built by the non-streaming `handle_chat_completion` (`handler.rs` lines
97-120): everything the claims observe about the response. -/
structure ChatCompletionResult where
  message : String
  finish_reason : Option FinishReason
deriving DecidableEq, Repr

/-- Shallow embedding of the `while let Ok(event) = event_rx.recv().await`
loop of `handle_chat_completion` (`handler.rs` lines 44-95), over the list
of events the receiver delivers (list end = channel closed, which exits the
loop). State: `final_message` and `finish_reason`, initialized by the caller
to `""` and `StopSequenceReached` (lines 44-45). -/
def handlerLoop : List AgentEvent → String → FinishReason →
    String × FinishReason
  | [], fm, fr => (fm, fr)
  | e :: rest, fm, fr =>
    match e with
    | .brainResult (.assistantText text) => handlerLoop rest text fr
    | .brainResult .other => handlerLoop rest fm fr
    | .toolCallStarted _ => handlerLoop rest fm fr
    | .toolCallCompleted _ _ => handlerLoop rest fm fr
    | .completed message success =>
      let fm2 := if message.isEmpty then fm else message
      let fr2 := if success then fr else FinishReason.stopSequenceReached
      (fm2, fr2)
    | .statusChanged _ new_status =>
      if new_status = PublicAgentState.paused then (fm, fr)
      else handlerLoop rest fm fr
    | .error _ => (fm, FinishReason.stopSequenceReached)
    | .other => handlerLoop rest fm fr

/-- Embedding of `handle_chat_completion`'s observable result (`handler.rs`
lines 44-120): run the event loop from the initial state and package the
final message and finish reason as they are placed into the single
`ChatCompletionChoice` of the response. -/
def handle_chat_completion (events : List AgentEvent) : ChatCompletionResult :=
  let st := handlerLoop events "" FinishReason.stopSequenceReached
  { message := st.1, finish_reason := some st.2 }

/-- Modelled from the spec: `shai_core::agent::AgentController` (shai-core's
agent module is not under src/). The spec pins down the only behaviour the
claims need: "`cancel() -> Result<(), Error>`, idempotent — calling it twice
must not fault, only the first call has effect" (spec section 3 and 6). The
model records whether an effective cancellation has already fired. -/
structure AgentController where
  cancelled : Bool
deriving DecidableEq, Repr

/-- Modelled from the spec: `AgentController::cancel`. Returns the updated
controller, the `Result` (always `Ok` per the idempotence requirement), and
a ghost flag saying whether this call was the effective cancellation (true
exactly on the first call). -/
def AgentController.cancel (c : AgentController) :
    AgentController × Bool × Bool :=
  if c.cancelled then (c, true, false)
  else ({ cancelled := true }, true, true)

/-- Mirrors `DisconnectionHandler` (`src/shai-http/src/lib.rs` lines 56-62).
The pinned inner SSE stream is modelled by the list of its remaining items
(`α` stands for `Result<Event, Infallible>` items); `session_id` is kept as
a string. -/
structure DisconnectionHandler (α : Type) where
  stream : List α
  controller : Option AgentController
  session_id : String
  completed : Bool

/-- Mirrors `<DisconnectionHandler as Stream>::poll_next` (`lib.rs` lines
64-80) at the granularity the claims observe: a poll that finds the inner
stream exhausted returns `Ready(None)` and sets `completed`; a poll that
finds an item forwards it unchanged (`other => other`). `Poll::Pending`
leaves the state untouched and is not represented. -/
def DisconnectionHandler.poll_next {α : Type} (h : DisconnectionHandler α) :
    DisconnectionHandler α × Option α :=
  match h.stream with
  | [] => ({ h with completed := true }, none)
  | x :: rest => ({ h with stream := rest }, some x)

/-- Mirrors `<DisconnectionHandler as Drop>::drop` (`lib.rs` lines 82-96):
`controller.take()`; if a controller was present and `completed` is false,
a cancellation is spawned on it (fire-and-forget). The returned `Bool` is
the ghost observation "a cancellation was issued by this drop". -/
def DisconnectionHandler.drop {α : Type} (h : DisconnectionHandler α) :
    DisconnectionHandler α × Bool :=
  match h.controller with
  | some _ => ({ h with controller := none }, !h.completed)
  | none => (h, false)

/-- `poll_next` iterated `n` times, discarding the forwarded items: the
state of the handler after the consumer has pulled `n` times. -/
def DisconnectionHandler.pollN {α : Type} (h : DisconnectionHandler α) :
    Nat → DisconnectionHandler α
  | 0 => h
  | n + 1 => (h.poll_next).1.pollN n

/-- Mirrors `openai_dive::v1::resources::chat::ChatMessageContentPart` as
discriminated in `handle_request` (`session.rs` lines 80-84): only the
`Text` part is read; all other part kinds fall through to `None` in the
`filter_map` and are collapsed into `otherPart`. -/
inductive ChatMessageContentPart where
  | text (text : String)
  | otherPart
deriving DecidableEq, Repr

/-- Mirrors `shai_llm::ChatMessageContent` as discriminated in
`handle_request` (`session.rs` lines 76-88): `Text`, `ContentPart` (a list
of parts), or `None`. -/
inductive ChatMessageContent where
  | text (t : String)
  | contentPart (parts : List ChatMessageContentPart)
  | none
deriving DecidableEq, Repr

/-- Mirrors `shai_llm::ChatMessage` as discriminated in `handle_request`
(`session.rs` lines 74-94): only `User { content, .. }` is acted on; all
non-user roles hit the `_ => {}` arm and are collapsed into `other`. -/
inductive ChatMessage where
  | user (content : ChatMessageContent)
  | other
deriving DecidableEq, Repr

/-- The text extraction applied to a user turn's content in `handle_request`
(`session.rs` lines 76-88): a `Text` content is taken as-is; a
`ContentPart` list keeps the text parts and joins them with a newline;
`None` becomes the empty string. -/
def extractUserText (content : ChatMessageContent) : String :=
  match content with
  | .text t => t
  | .contentPart parts =>
    String.intercalate "\n"
      (parts.filterMap (fun p =>
        match p with
        | .text t => some t
        | .otherPart => Option.none))
  | .none => ""

/-- Modelled from the spec: `RequestLifecycle` (defined in
`src/shai-http/src/session/mod.rs`, which is not under src/; only its
constructor call `RequestLifecycle::new(self.ephemeral, controller_guard,
self.session_id.clone())` at `session.rs` line 99 is). Spec section 3 gives
its data as `{owns: bool (true only if ephemeral), handle: ComputationHandle,
session_id}`, and section 4.2 states the handle mutex "is released between
calls"; accordingly the model stores the ephemeral flag, a handle to the
controller and the session id, and the mutex guard passed to `new` is
released when `new` returns. -/
structure RequestLifecycle where
  owns : Bool
  handle : AgentController
  session_id : String
deriving DecidableEq, Repr

/-- Mirrors `RequestSession` (`session.rs` lines 13-17); the broadcast
receiver field `event_rx` (a fresh resubscription, carrying no state the
claims observe) is not represented. -/
structure RequestSession where
  controller : AgentController
  lifecycle : RequestLifecycle
deriving DecidableEq, Repr

/-- The state of an `AgentSession` (`session.rs` lines 22-30) as the claims
observe it: the controller behind its `Arc<Mutex<_>>`, whether that mutex is
currently locked, the session id and the ephemeral flag. The broadcast
receiver and the background `JoinHandle` are not represented. -/
structure AgentSessionState where
  controller : AgentController
  locked : Bool
  session_id : String
  ephemeral : Bool
deriving DecidableEq, Repr

/-- Mirrors `shai_core::agent::AgentError` as discriminated by
`create_agent_from_model` (`lib.rs` lines 37-52): the
`ConfigurationError(msg)` variant is matched by name; every other variant
hits the `_` arm and is collapsed into `otherError` carrying its display
string (also the error type of `send_user_input` and `cancel`). -/
inductive AgentError where
  | configurationError (msg : String)
  | otherError (display : String)
deriving DecidableEq, Repr

/-- Ghost-instrumented result of `AgentSession::handle_request`:
`submitted` is the ordered list of texts passed to
`controller_guard.send_user_input` (each attempted call is logged);
`result` is the function's return value, with the error index of the
spec-level submission oracle as the error payload; `post` is the session
state when the call has returned. -/
structure HandleRequestResult where
  submitted : List String
  result : Except AgentError RequestSession
  post : AgentSessionState
deriving Repr

/-- The turn-replay loop of `handle_request` (`session.rs` lines 73-95),
instrumented with the list of texts submitted: walks the trace; for each
`User` turn extracts its text; skips it if empty, otherwise calls the
submission oracle `submit` (modelling `send_user_input`, whose body lives in
shai-core outside src/; `none` is `Ok(())`, `some e` the returned error);
a failing submission aborts the walk (the `?` operator) after logging the
attempted text. Returns the submission log and the error, if any. -/
def replayTurns (submit : String → Option AgentError) :
    List ChatMessage → List String × Option AgentError
  | [] => ([], none)
  | .user content :: rest =>
    let text := extractUserText content
    if text.isEmpty then replayTurns submit rest
    else
      match submit text with
      | none =>
        let r := replayTurns submit rest
        (text :: r.1, r.2)
      | some e => ([text], some e)
  | .other :: rest => replayTurns submit rest

/-- Shallow embedding of `AgentSession::handle_request` (`session.rs` lines
67-102), instrumented as `HandleRequestResult`. The body runs with the
controller mutex held (`lock_owned` at line 68); the replay loop runs under
the guard; on a submission error the guard (a local) is dropped at the early
`?` return; on success the guard is moved into `RequestLifecycle::new`,
which (modelled from the spec, see `RequestLifecycle`) releases it when it
returns. Either way the mutex is unlocked in the returned `post` state. -/
def AgentSession.handle_request (s : AgentSessionState)
    (submit : String → Option AgentError) (trace : List ChatMessage) :
    HandleRequestResult :=
  let r := replayTurns submit trace
  match r.2 with
  | none =>
    let lifecycle : RequestLifecycle :=
      { owns := s.ephemeral, handle := s.controller,
        session_id := s.session_id }
    { submitted := r.1
      result := .ok { controller := s.controller, lifecycle := lifecycle }
      post := { s with locked := false } }
  | some e =>
    { submitted := r.1
      result := .error e
      post := { s with locked := false } }

/-- Shallow embedding of `AgentSession::cancel` (`session.rs` lines 53-57):
acquire the controller mutex, call `AgentController::cancel`, return. In
this sequential model an acquisition that would have to wait (mutex already
locked) is `none`; otherwise the result carries the updated session state,
the `Ok`/`Err` outcome of the controller call, and the ghost "effective
cancellation fired" flag. -/
def AgentSession.cancel (s : AgentSessionState) :
    Option (AgentSessionState × Bool × Bool) :=
  if s.locked then none
  else
    let r := s.controller.cancel
    some ({ s with controller := r.1 }, r.2.1, r.2.2)

/-- Modelled from the spec: the `ErrorResponse` constructors of
`src/shai-http/src/error.rs` (the module is declared in `lib.rs` but its
file is not under src/). Spec sections 6 and 7 give the three boundary
error kinds — not-found, invalid-request, internal-error — each carrying a
message. -/
inductive ErrorResponse where
  | not_found (msg : String)
  | invalid_request (msg : String)
  | internal_error (msg : String)
deriving DecidableEq, Repr

/-- Substring containment on character lists: `pat` occurs (contiguously)
somewhere in `msg`. -/
def listContainsInfix (pat : List Char) : List Char → Bool
  | [] => decide (pat <+: ([] : List Char))
  | c :: tail => decide (pat <+: (c :: tail)) || listContainsInfix pat tail

/-- Mirrors `msg.contains("does not exist")` (`lib.rs` line 40): substring
containment. -/
def containsSubstring (msg pat : String) : Bool :=
  listContainsInfix pat.data msg.data

/-- Mirrors the `agent_config_name` selection of `create_agent_from_model`
(`lib.rs` lines 30-34): `None` for an empty or `"default"` model name,
otherwise `Some(model)`. -/
def agentConfigName (model : String) : Option String :=
  if model.isEmpty || model = "default" then none
  else some model

/-- Mirrors the `map_err` closure of `create_agent_from_model` (`lib.rs`
lines 36-53): a `ConfigurationError` whose message contains
`"does not exist"` becomes a not-found response; any other
`ConfigurationError` becomes an invalid-request response carrying the
message; every other error becomes an internal-error response. -/
def mapAgentCreationError (model : String) (e : AgentError) : ErrorResponse :=
  match e with
  | .configurationError msg =>
    if containsSubstring msg "does not exist" then
      ErrorResponse.not_found ("Agent '" ++ model ++ "' not found")
    else ErrorResponse.invalid_request msg
  | .otherError display =>
    ErrorResponse.internal_error ("Failed to create agent: " ++ display)

/-- Shallow embedding of `create_agent_from_model` (`lib.rs` lines 24-54):
`create` is the oracle for `AgentBuilder::create` (shai-core, outside src/),
taking the selected config name; its error, if any, is mapped by
`mapAgentCreationError`. `β` stands for `AgentBuilder`. -/
def create_agent_from_model {β : Type}
    (create : Option String → Except AgentError β) (model : String) :
    Except ErrorResponse β :=
  match create (agentConfigName model) with
  | .ok b => .ok b
  | .error e => .error (mapAgentCreationError model e)

/-- The `content` of the delta of a chunk's single choice (the final-answer
text position of the wire format). -/
def chunkContent (c : ChatCompletionChunkResponse) : Option String :=
  match c.choices with
  | [] => none
  | ch :: _ => ch.delta.content

/-- The `reasoning_content` of the delta of a chunk's single choice (the
"thinking" text position of the wire format). -/
def chunkReasoning (c : ChatCompletionChunkResponse) : Option String :=
  match c.choices with
  | [] => none
  | ch :: _ => ch.delta.reasoning_content

/-- The finish marker of a chunk's single choice. -/
def chunkFinish (c : ChatCompletionChunkResponse) : Option FinishReason :=
  match c.choices with
  | [] => none
  | ch :: _ => ch.finish_reason

/-- A serializer for chunks that renders the visible text (content if
present, else reasoning): a concrete, always-succeeding stand-in for
`serde_json::to_string`, used to observe which event an emitted item
derives from. -/
def chunkTextSerializer (c : ChatCompletionChunkResponse) : Option String :=
  some ((chunkContent c).getD ((chunkReasoning c).getD ""))

/-- The error of an `Except` result, if any. -/
def resultError {ε α : Type} (r : Except ε α) : Option ε :=
  match r with
  | .ok _ => none
  | .error e => some e

/-- Follows the spec's words (claim C5 / spec section 4.2), for comparison
with the source-derived `replayTurns`: "each user-authored text turn ...
skipping empty turns" — the user turns of the trace whose extracted text is
non-empty, in order. -/
def userTextsSpec (trace : List ChatMessage) : List String :=
  trace.filterMap (fun m =>
    match m with
    | .user content =>
      let t := extractUserText content
      if t.isEmpty then none else some t
    | .other => none)

/-- Follows the spec's words (claim C5 / spec section 4.2), for comparison
with the source-derived `replayTurns`: forward the texts "to the handle via
submit_input, in the order given"; "on any submission failure the whole call
fails and no further turns are forwarded". Returns the forwarded texts (the
failing attempt included) and the error, if any. -/
def forwardSpec (submit : String → Option AgentError) :
    List String → List String × Option AgentError
  | [] => ([], none)
  | t :: ts =>
    match submit t with
    | none =>
      let r := forwardSpec submit ts
      (t :: r.1, r.2)
    | some e => ([t], some e)

/-- Flip the `success` flag of every `Completed` event, leaving all other
events unchanged: the observation used to state that the flag has no effect
on the produced responses. -/
def flipSuccess (e : AgentEvent) : AgentEvent :=
  match e with
  | .completed message success => .completed message (!success)
  | x => x

/-- The event sequence of the spec scenario behind claim C7. -/
def scenarioEvents : List AgentEvent :=
  [ .toolCallStarted { tool_name := "search" },
    .toolCallCompleted { tool_name := "search" } .success,
    .brainResult (.assistantText "Paris is the capital"),
    .completed "Paris is the capital" true ]

/-- A closed unfold state (`done = true`) emits nothing more: the outbound
stream has ended. -/
theorem sseTrace_closed {σ ω : Type} (step : σ → AgentEvent → σ × Option ω)
    (ser : ω → Option String) (l : List RxItem) (s : σ) :
    sseTrace step ser l s true = [] := by
  cases l with
  | nil => rfl
  | cons x rest => cases x <;> rfl

/-- While the consumer has pulled no further than the inner stream's items,
`poll_next` only consumes items: the `completed` flag stays unset and the
controller stays in place. -/
theorem DisconnectionHandler.pollN_within {α : Type} (c : AgentController)
    (sid : String) :
    ∀ (n : Nat) (items : List α), n ≤ items.length →
      DisconnectionHandler.pollN
        { stream := items, controller := some c, session_id := sid,
          completed := false } n
      = { stream := items.drop n, controller := some c, session_id := sid,
          completed := false } := by
  intro n
  induction n with
  | zero => intro items _; simp [DisconnectionHandler.pollN]
  | succ m ih =>
    intro items hle
    cases items with
    | nil => exact absurd hle (by simp)
    | cons x rest =>
      have : m ≤ rest.length := by
        simpa using Nat.le_of_succ_le_succ hle
      simp [DisconnectionHandler.pollN, DisconnectionHandler.poll_next,
        ih rest this]

/-- C1: a `DisconnectionHandler` wrapping an outbound SSE stream (inner
items `items`, controller present) cancels exactly when it is dropped
before a poll has observed end-of-stream: (i) once some poll has returned
end-of-stream (which sets `completed`), its drop issues no cancellation;
(ii) if it is dropped after `n ≤ items.length` polls — i.e. before any poll
could observe end-of-stream — the drop issues a cancellation; (iii) the
`controller.take()` in the drop ensures a cancellation is issued at most
once per handler instance: after one drop, a further drop never cancels. -/
theorem disconnection_handler_cancels_iff_abandoned {α : Type}
    (items : List α) (c : AgentController) (sid : String) (n : Nat) :
    (∀ h : DisconnectionHandler α, (h.poll_next).2 = none →
      (((h.poll_next).1).drop).2 = false)
    ∧ (n ≤ items.length →
      ((DisconnectionHandler.pollN
        { stream := items, controller := some c, session_id := sid,
          completed := false } n).drop).2 = true)
    ∧ (∀ h : DisconnectionHandler α, (((h.drop).1).drop).2 = false) := by
  refine ⟨?_, ?_, ?_⟩
  · intro h hpoll
    cases hs : h.stream with
    | nil =>
      simp [DisconnectionHandler.poll_next, hs, DisconnectionHandler.drop]
      cases h.controller <;> simp
    | cons x rest =>
      exfalso
      simp [DisconnectionHandler.poll_next, hs] at hpoll
  · intro hle
    rw [DisconnectionHandler.pollN_within c sid n items hle]
    simp [DisconnectionHandler.drop]
  · intro h
    cases hc : h.controller with
    | none => simp [DisconnectionHandler.drop, hc]
    | some c2 => simp [DisconnectionHandler.drop, hc]

/-- Witness for C1 at a concrete input: a handler over a two-item stream,
dropped after one poll (mid-stream), issues a cancellation. -/
theorem disconnection_handler_cancels_iff_abandoned_witness :
    ((DisconnectionHandler.pollN
      { stream := ([0, 1] : List Nat), controller := some { cancelled := false },
        session_id := "s", completed := false } 1).drop).2 = true :=
  (disconnection_handler_cancels_iff_abandoned [0, 1]
    { cancelled := false } "s" 1).2.1 (by decide)

/-- Once a terminal event is delivered (under a serializer that does not
fail), the items following it on the subscription contribute nothing to the
outbound stream. -/
theorem sseTrace_ignores_after_terminal {σ ω : Type}
    (step : σ → AgentEvent → σ × Option ω) (ser : ω → Option String)
    (hser : ∀ o, (ser o).isSome = true)
    (e : AgentEvent) (hterm : is_terminal_event e = true)
    (post : List RxItem) :
    ∀ (pre : List RxItem) (s : σ),
      sseTrace step ser (pre ++ RxItem.ok e :: post) s false
        = sseTrace step ser (pre ++ [RxItem.ok e]) s false := by
  intro pre
  induction pre with
  | nil =>
    intro s
    simp only [List.nil_append]
    cases hstep : (step s e).2 with
    | some o =>
      cases hso : ser o with
      | none =>
        have := hser o
        rw [hso] at this
        simp at this
      | some j =>
        simp [sseTrace, hstep, hso, hterm, sseTrace_closed]
    | none => simp [sseTrace, hstep, hterm]
  | cons x rest ih =>
    intro s
    cases x with
    | err k => simp [sseTrace]
    | ok e2 =>
      cases hstep : (step s e2).2 with
      | some o =>
        cases hso : ser o with
        | none =>
          have := hser o
          rw [hso] at this
          simp at this
        | some j =>
          cases ht2 : is_terminal_event e2 with
          | true =>
            simp [sseTrace, hstep, hso, ht2, sseTrace_closed]
          | false =>
            simp [sseTrace, hstep, hso, ht2, ih]
      | none =>
        cases ht2 : is_terminal_event e2 with
        | true => simp [sseTrace, hstep, ht2]
        | false => simp [sseTrace, hstep, ht2, ih]

/-- C2: terminal truncation of the SSE stream assembly. For every event
sequence fed to `sseTrace` (any formatter `step`, any serializer that does
not fail) and every terminal event `e`: (i) the outbound stream is
unchanged if everything delivered after the terminal event is discarded —
no item derived from a later event ever appears; (ii)-(iii) from the
delivery of the terminal event on, the assembly emits exactly the terminal
event's own formatted item if the formatter returns `Some` for it, and
nothing at all if the formatter returns `None`, and then the stream ends. -/
theorem sse_terminal_truncation {σ ω : Type}
    (step : σ → AgentEvent → σ × Option ω) (ser : ω → Option String)
    (hser : ∀ o, (ser o).isSome = true)
    (e : AgentEvent) (hterm : is_terminal_event e = true)
    (pre post : List RxItem) (s : σ) :
    sseTrace step ser (pre ++ RxItem.ok e :: post) s false
      = sseTrace step ser (pre ++ [RxItem.ok e]) s false
    ∧ (∀ o, (step s e).2 = some o →
        sseTrace step ser (RxItem.ok e :: post) s false = (ser o).toList)
    ∧ ((step s e).2 = none →
        sseTrace step ser (RxItem.ok e :: post) s false = []) := by
  refine ⟨sseTrace_ignores_after_terminal step ser hser e hterm post pre s,
    ?_, ?_⟩
  · intro o hstep
    cases hso : ser o with
    | none =>
      have := hser o
      rw [hso] at this
      simp at this
    | some j =>
      simp [sseTrace, hstep, hso, hterm, sseTrace_closed]
  · intro hstep
    simp [sseTrace, hstep, hterm]

/-- Witness for C2 at a concrete input: the chat-completion formatter, a
total serializer, a `Completed` terminal event followed by a further tool
event — the trace equals the trace with the suffix discarded. -/
theorem sse_terminal_truncation_witness :
    sseTrace (fun f e => ChatCompletionFormatter.format_event f e)
      chunkTextSerializer
      [RxItem.ok (.completed "done" true),
       RxItem.ok (.toolCallStarted { tool_name := "t" })]
      (ChatCompletionFormatter.new "m" 0) false
    = sseTrace (fun f e => ChatCompletionFormatter.format_event f e)
      chunkTextSerializer
      [RxItem.ok (.completed "done" true)]
      (ChatCompletionFormatter.new "m" 0) false :=
  (sse_terminal_truncation
    (fun f e => ChatCompletionFormatter.format_event f e)
    chunkTextSerializer (fun _ => rfl)
    (.completed "done" true) rfl
    [] [RxItem.ok (.toolCallStarted { tool_name := "t" })]
    (ChatCompletionFormatter.new "m" 0)).1

/-- Counterexample to C3 as stated: `is_terminal_event` does not treat an
`Error` domain event as terminal (`streaming.rs` lines 125-134 match only
`Completed` and `StatusChanged` to `Paused`), so after
`Error("backend timeout")` the assembly does NOT close the outbound stream:
fed a subsequent `ToolCallStarted("search")` event, it emits an item derived
from that later event. -/
theorem error_event_not_terminal_counterexample :
    is_terminal_event (.error "backend timeout") = false
    ∧ sseTrace (fun f e => ChatCompletionFormatter.format_event f e)
        chunkTextSerializer
        [RxItem.ok (.error "backend timeout"),
         RxItem.ok (.toolCallStarted { tool_name := "search" })]
        (ChatCompletionFormatter.new "m" 0) false
      = ["Error: backend timeout", "[toolcall: search]"] := by
  exact ⟨rfl, rfl⟩

/-- C3 (amended): the streaming formatter renders an `Error` domain event as
a content chunk whose text is the error message prefixed with `"Error: "`
(as content, not reasoning) carrying a finish marker — but the event is NOT
terminal for the stream assembly: `is_terminal_event` is false on it, the
formatter state is unchanged, and the assembly, after emitting the error
chunk, keeps pulling and formatting the events delivered after it (the
outbound stream ends only at a later `Completed`/`Paused` event or when the
subscription itself ends). -/
theorem error_event_rendering_and_continuation
    (f : ChatCompletionFormatter) (msg : String) (rest : List RxItem) :
    (∃ c, (f.format_event (.error msg)).2 = some c
      ∧ chunkContent c = some ("Error: " ++ msg)
      ∧ chunkReasoning c = none
      ∧ chunkFinish c = some FinishReason.stopSequenceReached)
    ∧ is_terminal_event (.error msg) = false
    ∧ sseTrace (fun g e => ChatCompletionFormatter.format_event g e)
        chunkTextSerializer (RxItem.ok (.error msg) :: rest) f false
      = ("Error: " ++ msg) ::
        sseTrace (fun g e => ChatCompletionFormatter.format_event g e)
          chunkTextSerializer rest f false := by
  exact ⟨⟨_, rfl, rfl, rfl, rfl⟩, rfl, rfl⟩

/-- C4 (under the spec model of `RequestLifecycle`, whose definition is not
under src/): `handle_request` holds the exclusive controller lock only for
the duration of the invocation — on both the success path (guard moved into
`RequestLifecycle::new`, which per the spec does not retain it) and the
early-error path (guard dropped at the `?` return) the session's mutex is
unlocked when the call returns, so a subsequent `cancel` on the same
session acquires the handle immediately (it is not `none`, the
would-have-to-wait outcome of the model). -/
theorem handle_request_releases_handle_lock
    (s : AgentSessionState) (submit : String → Option AgentError)
    (trace : List ChatMessage) :
    (AgentSession.handle_request s submit trace).post.locked = false
    ∧ (AgentSession.cancel
        (AgentSession.handle_request s submit trace).post).isSome = true := by
  unfold AgentSession.handle_request
  cases h : (replayTurns submit trace).2 <;>
    simp [h, AgentSession.cancel, AgentController.cancel]

/-- The source's replay loop computes exactly the spec-side description:
forward, in order, the user turns with non-empty extracted text, stopping
at (and returning) the first submission error. -/
theorem replayTurns_eq_forwardSpec (submit : String → Option AgentError) :
    ∀ trace : List ChatMessage,
      replayTurns submit trace = forwardSpec submit (userTextsSpec trace) := by
  intro trace
  induction trace with
  | nil => rfl
  | cons m rest ih =>
    cases m with
    | other =>
      simpa [replayTurns, userTextsSpec, List.filterMap_cons] using ih
    | user content =>
      cases he : (extractUserText content).isEmpty with
      | true =>
        simpa [replayTurns, userTextsSpec, List.filterMap_cons, he] using ih
      | false =>
        cases hs : submit (extractUserText content) with
        | none =>
          simp only [replayTurns, userTextsSpec, List.filterMap_cons, he,
            hs, forwardSpec, Bool.false_eq_true, if_false]
          rw [ih]
          simp [userTextsSpec, forwardSpec, hs]
        | some e =>
          simp [replayTurns, userTextsSpec, List.filterMap_cons, he, hs,
            forwardSpec]

/-- C5: `handle_request` forwards to the handle, via `send_user_input`,
exactly the user-authored turns of the given trace whose extracted text is
non-empty, in the order given (empty turns and non-user turns are skipped);
and it returns successfully exactly when no submission errs, the first
submission error otherwise, forwarding no further turns after it — i.e. its
instrumented submission log and outcome coincide with the spec-side
`forwardSpec` over `userTextsSpec`. -/
theorem handle_request_forwards_user_turns
    (s : AgentSessionState) (submit : String → Option AgentError)
    (trace : List ChatMessage) :
    (AgentSession.handle_request s submit trace).submitted
      = (forwardSpec submit (userTextsSpec trace)).1
    ∧ resultError (AgentSession.handle_request s submit trace).result
      = (forwardSpec submit (userTextsSpec trace)).2 := by
  unfold AgentSession.handle_request
  rw [replayTurns_eq_forwardSpec]
  cases h : (forwardSpec submit (userTextsSpec trace)).2 <;>
    simp [h, resultError]

/-- C6 (under the spec model of `AgentController::cancel`, whose body is in
shai-core outside src/): two sequential `cancel` calls on the same session
produce exactly one effective cancellation — the first call returns `Ok`
and fires the cancellation, the second call returns `Ok` and has no further
effect. -/
theorem session_cancel_idempotent
    (s : AgentSessionState) (hl : s.locked = false)
    (hc : s.controller.cancelled = false) :
    ∃ s1 s2 : AgentSessionState,
      AgentSession.cancel s = some (s1, true, true)
      ∧ AgentSession.cancel s1 = some (s2, true, false) := by
  refine ⟨{ s with controller := { cancelled := true } },
    { s with controller := { cancelled := true } }, ?_, ?_⟩ <;>
    simp [AgentSession.cancel, AgentController.cancel, hl, hc]

/-- Witness for C6 at a concrete session state (unlocked, not yet
cancelled). -/
theorem session_cancel_idempotent_witness :
    ∃ s1 s2 : AgentSessionState,
      AgentSession.cancel
        { controller := { cancelled := false }, locked := false,
          session_id := "s", ephemeral := true } = some (s1, true, true)
      ∧ AgentSession.cancel s1 = some (s2, true, false) :=
  session_cancel_idempotent
    { controller := { cancelled := false }, locked := false,
      session_id := "s", ephemeral := true } rfl rfl

/-- Counterexample to C7 as stated: on the scenario event sequence the
streaming formatter yields only TWO "thinking" chunks, not three — the
`BrainResult` event formats to `None` (`formatter.rs` lines 65-77: it only
accumulates the assistant text) and contributes no chunk. -/
theorem scenario_thinking_chunks_counterexample :
    (((ChatCompletionFormatter.new "gpt" 0).formatTrace
        scenarioEvents).filterMap chunkReasoning)
      = ["[toolcall: search]", "[tool succeeded: search]"]
    ∧ ¬ ((((ChatCompletionFormatter.new "gpt" 0).formatTrace
        scenarioEvents).filterMap chunkReasoning).length = 3) := by
  exact ⟨rfl, by decide⟩

/-- C7 (amended): on the scenario sequence `ToolCallStarted("search")`,
`ToolCallCompleted("search", Success)`, `BrainResult("Paris is the
capital")`, `Completed("Paris is the capital", success=true)`, the
streaming formatter yields TWO "thinking" chunks (each with the bracketed
tool text as reasoning content, never as final content; the `BrainResult`
only accumulates text and yields no chunk) plus one final content chunk
`"Paris is the capital"` with a finish marker; and the non-streaming
handler yields one response whose message is `"Paris is the capital"`. -/
theorem scenario_two_thinking_chunks_one_final :
    ((ChatCompletionFormatter.new "gpt" 0).formatTrace scenarioEvents).map
        (fun c => (chunkContent c, chunkReasoning c, chunkFinish c))
      = [(none, some "[toolcall: search]", none),
         (none, some "[tool succeeded: search]", none),
         (some "Paris is the capital", none,
           some FinishReason.stopSequenceReached)]
    ∧ handle_chat_completion scenarioEvents
      = { message := "Paris is the capital",
          finish_reason := some FinishReason.stopSequenceReached } := by
  exact ⟨rfl, rfl⟩

/-- C8: classification of agent-creation failures by
`create_agent_from_model`: a `ConfigurationError` whose message contains
`"does not exist"` surfaces as the not-found response; any other
`ConfigurationError` surfaces as the invalid-request response carrying the
message; every other error kind surfaces as the internal-error response —
and whenever the builder oracle fails, `create_agent_from_model` returns
exactly the response this mapping assigns to the error. -/
theorem create_agent_from_model_error_mapping {β : Type}
    (create : Option String → Except AgentError β)
    (model msg d : String) (e : AgentError) :
    (create (agentConfigName model) = Except.error e →
      create_agent_from_model create model
        = Except.error (mapAgentCreationError model e))
    ∧ (containsSubstring msg "does not exist" = true →
      mapAgentCreationError model (AgentError.configurationError msg)
        = ErrorResponse.not_found ("Agent '" ++ model ++ "' not found"))
    ∧ (containsSubstring msg "does not exist" = false →
      mapAgentCreationError model (AgentError.configurationError msg)
        = ErrorResponse.invalid_request msg)
    ∧ mapAgentCreationError model (AgentError.otherError d)
      = ErrorResponse.internal_error ("Failed to create agent: " ++ d) := by
  refine ⟨?_, ?_, ?_, rfl⟩
  · intro h
    simp [create_agent_from_model, h]
  · intro h
    simp [mapAgentCreationError, h]
  · intro h
    simp [mapAgentCreationError, h]

/-- Witness for C8 at concrete inputs: a configuration error whose message
contains "does not exist" yields the not-found response end to end, and one
without it yields the invalid-request response. -/
theorem create_agent_from_model_error_mapping_witness :
    create_agent_from_model (β := Unit)
      (fun _ => Except.error
        (AgentError.configurationError "agent does not exist"))
      "foo"
      = Except.error (ErrorResponse.not_found "Agent 'foo' not found")
    ∧ mapAgentCreationError "foo" (AgentError.configurationError "bad toml")
      = ErrorResponse.invalid_request "bad toml" := by
  have h := create_agent_from_model_error_mapping (β := Unit)
    (fun _ => Except.error
      (AgentError.configurationError "agent does not exist"))
    "foo" "agent does not exist" "d"
    (AgentError.configurationError "agent does not exist")
  have h2 := create_agent_from_model_error_mapping (β := Unit)
    (fun _ => Except.error
      (AgentError.configurationError "agent does not exist"))
    "foo" "bad toml" "d"
    (AgentError.configurationError "agent does not exist")
  refine ⟨?_, h2.2.2.1 (by decide)⟩
  rw [h.1 rfl, h.2.1 (by decide)]
  rfl

/-- C9: mid-stream error handling of the SSE assembly. (i) If serializing a
formatted output fails, that item is skipped and the stream continues by
pulling the next event (the trace equals the trace of the remaining items,
from the advanced formatter state). (ii) If the subscription itself yields
an error (`BroadcastStream` receive error), the outbound stream ends at
that point regardless of what follows. -/
theorem sse_stream_error_handling {σ ω : Type}
    (step : σ → AgentEvent → σ × Option ω) (ser : ω → Option String)
    (e : AgentEvent) (o : ω) (rest : List RxItem) (s : σ) (done : Bool)
    (k : Nat) :
    ((step s e).2 = some o → ser o = none →
      sseTrace step ser (RxItem.ok e :: rest) s done
        = sseTrace step ser rest (step s e).1 done)
    ∧ sseTrace step ser (RxItem.err k :: rest) s false = [] := by
  constructor
  · intro hstep hso
    cases done with
    | true => simp [sseTrace_closed]
    | false => simp [sseTrace, hstep, hso]
  · rfl

/-- Witness for C9 at a concrete input: under an always-failing serializer a
formatted tool event is skipped (empty continuation), and a receive error
ends the stream immediately. -/
theorem sse_stream_error_handling_witness :
    sseTrace (fun f e => ChatCompletionFormatter.format_event f e)
      (fun _ => none)
      [RxItem.ok (.toolCallStarted { tool_name := "t" })]
      (ChatCompletionFormatter.new "m" 0) false
    = sseTrace (fun f e => ChatCompletionFormatter.format_event f e)
      (fun _ => none) []
      ((ChatCompletionFormatter.new "m" 0).format_event
        (.toolCallStarted { tool_name := "t" })).1 false
    ∧ sseTrace (fun f e => ChatCompletionFormatter.format_event f e)
      (fun _ => none) [RxItem.err 1]
      (ChatCompletionFormatter.new "m" 0) false = [] := by
  have h := sse_stream_error_handling
    (fun f e => ChatCompletionFormatter.format_event f e)
    (fun _ => none) (.toolCallStarted { tool_name := "t" })
    ((ChatCompletionFormatter.new "m" 0).create_chunk
      { content := none, reasoning_content := some "[toolcall: t]",
        refusal := none, name := none, tool_calls := none } none)
    [] (ChatCompletionFormatter.new "m" 0) false 1
  exact ⟨h.1 rfl rfl, h.2⟩

/-- The non-streaming loop's finish reason is invariantly the constant it
was initialized with: no event ever sets it to anything other than
`StopSequenceReached`. -/
theorem handlerLoop_finish_stop (events : List AgentEvent) :
    ∀ fm : String,
      (handlerLoop events fm FinishReason.stopSequenceReached).2
        = FinishReason.stopSequenceReached := by
  induction events with
  | nil => intro fm; rfl
  | cons e rest ih =>
    intro fm
    cases e with
    | brainResult t =>
      cases t with
      | assistantText text => exact ih text
      | other => exact ih fm
    | toolCallStarted c => exact ih fm
    | toolCallCompleted c r => exact ih fm
    | completed msg success => cases success <;> simp [handlerLoop]
    | statusChanged o n =>
      cases n with
      | paused => simp [handlerLoop]
      | running => simpa [handlerLoop] using ih fm
    | error msg => rfl
    | other => exact ih fm

/-- Flipping every `Completed` event's success flag leaves the whole
non-streaming loop result unchanged. -/
theorem handlerLoop_success_flag_irrelevant (events : List AgentEvent) :
    ∀ fm : String,
      handlerLoop (events.map flipSuccess) fm FinishReason.stopSequenceReached
        = handlerLoop events fm FinishReason.stopSequenceReached := by
  induction events with
  | nil => intro fm; rfl
  | cons e rest ih =>
    intro fm
    cases e with
    | brainResult t =>
      cases t with
      | assistantText text => simpa [flipSuccess, handlerLoop] using ih text
      | other => simpa [flipSuccess, handlerLoop] using ih fm
    | toolCallStarted c => simpa [flipSuccess, handlerLoop] using ih fm
    | toolCallCompleted c r => simpa [flipSuccess, handlerLoop] using ih fm
    | completed msg success => cases success <;> simp [flipSuccess, handlerLoop]
    | statusChanged o n =>
      cases n with
      | paused => simp [flipSuccess, handlerLoop]
      | running => simpa [flipSuccess, handlerLoop] using ih fm
    | error msg => rfl
    | other => simpa [flipSuccess, handlerLoop] using ih fm

/-- C10: the finish indicator emitted at the end of an exchange is the same
fixed constant (`StopSequenceReached`) everywhere: on the streaming
formatter's `Completed` chunk (whatever the success flag), on its `Error`
chunk, and on the non-streaming handler's response for every event
sequence; moreover the `Completed` success flag has no observable effect —
the formatter's output is syntactically the same for both flag values and
the non-streaming response is unchanged if every success flag is flipped. -/
theorem finish_marker_fixed_constant
    (f : ChatCompletionFormatter) (msg d : String) (b : Bool)
    (events : List AgentEvent) :
    ((f.format_event (.completed msg b)).2.map chunkFinish
      = some (some FinishReason.stopSequenceReached))
    ∧ f.format_event (.completed msg true)
      = f.format_event (.completed msg false)
    ∧ ((f.format_event (.error d)).2.map chunkFinish
      = some (some FinishReason.stopSequenceReached))
    ∧ (handle_chat_completion events).finish_reason
      = some FinishReason.stopSequenceReached
    ∧ handle_chat_completion (events.map flipSuccess)
      = handle_chat_completion events := by
  refine ⟨rfl, rfl, rfl, ?_, ?_⟩
  · simp [handle_chat_completion, handlerLoop_finish_stop]
  · simp [handle_chat_completion, handlerLoop_success_flag_irrelevant]
